import Mathlib

/-!
Verification of the Travel Buddy backend (src/app.py) against its
natural-language specification.  Python dictionaries are modelled as
association lists over `String` keys, Python floats as rationals, and
fallible external collaborators (geocoding, the generative model) as
explicit `Option`-valued parameters.
-/

set_option maxHeartbeats 1000000

namespace TravelBuddy

/-- `prefChars pat cs` holds when `pat` is a prefix of `cs`. -/
def prefChars : List Char → List Char → Bool
  | [], _ => true
  | x :: xs, ys =>
    match ys with
    | [] => false
    | y :: yt => x == y && prefChars xs yt

/-- Python `str.lower()`, modelled characterwise (the inputs and keywords
involved are ASCII). -/
def lowerStr (s : String) : String := ⟨s.data.map Char.toLower⟩

/-- `hasSub hay needle` is Python `needle in hay` for strings. -/
def hasSubChars (hay needle : List Char) : Bool :=
  match hay with
  | [] => needle.isEmpty
  | _ :: t => prefChars needle hay || hasSubChars t needle

def hasSub (hay needle : String) : Bool :=
  hasSubChars hay.data needle.data

/-- First-occurrence lookup in an association list: Python `dict.get`. -/
def alookup {β : Type} (k : String) : List (String × β) → Option β
  | [] => none
  | (a, v) :: t => if k = a then some v else alookup k t

/-- One option of a clarifying question (`src/app.py`, `CLARIFYING_QUESTIONS`). -/
structure QOption where
  label : String
  value : String
  search_mod : Option String := none
deriving DecidableEq

/-- One clarifying question: id, prompt text, options, optional dependency
map and optional question type (`multi_select`). -/
structure Question where
  id : String
  text : String
  options : List QOption
  depends_on : List (String × List String) := []
  qtype : Option String := none
deriving DecidableEq

/-- The three questions of the "movie" intent (src/app.py lines 65-99). -/
def movieFoodTimingQ : Question :=
  { id := "food_timing"
    text := "Want to eat before or after the movie?"
    options := [
      { label := "🍽️ Before", value := "before" },
      { label := "🎬 After", value := "after" },
      { label := "🍿 Just snacks", value := "snacks" },
      { label := "🚫 Not hungry", value := "none" }] }

def movieFoodTypeQ : Question :=
  { id := "food_type"
    text := "What kind of food?"
    options := [
      { label := "🍕 Quick bite", value := "quick", search_mod := some ("fast food quick service") },
      { label := "🍝 Something nice", value := "nice", search_mod := some ("good restaurant dine in") },
      { label := "🌮 Street food", value := "street", search_mod := some ("popular street food local famous") },
      { label := "☕ Cafe vibes", value := "cafe", search_mod := some ("cafe coffee snacks") }]
    depends_on := [("food_timing", ["before", "after"])] }

def moviePrefQ : Question :=
  { id := "movie_pref"
    text := "What are you in the mood for?"
    options := [
      { label := "🎬 New releases", value := "new" },
      { label := "⭐ Top rated", value := "top" },
      { label := "😂 Comedy", value := "comedy" },
      { label := "💥 Action", value := "action" },
      { label := "🤷 Surprise me", value := "any" }] }

/-- The per-intent clarifying-question catalog (src/app.py lines 64-213). -/
def CLARIFYING_QUESTIONS : List (String × List Question) := [
  ("movie", [movieFoodTimingQ, movieFoodTypeQ, moviePrefQ]),
  ("food", [
    { id := "food_type"
      text := "What kind of food are you craving?"
      options := [
        { label := "🍕 Quick bite", value := "quick" },
        { label := "🍝 Proper meal", value := "proper" },
        { label := "🌮 Street food", value := "street" },
        { label := "☕ Cafe", value := "cafe" },
        { label := "🍻 Drinks + food", value := "pub" }] },
    { id := "budget"
      text := "Budget?"
      options := [
        { label := "💰 Under ₹500", value := "budget" },
        { label := "💳 ₹500-1500", value := "mid" },
        { label := "💎 No limit", value := "premium" }] }]),
  ("bored", [
    { id := "time_available"
      text := "How much time do you have?"
      options := [
        { label := "⚡ 1-2 hours", value := "short" },
        { label := "🕐 Half day", value := "half" },
        { label := "📅 Full day", value := "full" }] },
    { id := "energy_level"
      text := "Energy level?"
      options := [
        { label := "🧘 Chill", value := "chill" },
        { label := "⚖️ Balanced", value := "balanced" },
        { label := "🎢 Adventurous", value := "adventure" }] }]),
  ("day_plan", [
    { id := "start_time"
      text := "What time do you want to start?"
      options := [
        { label := "🌅 Morning (~9 AM)", value := "morning" },
        { label := "☀️ Noon (~12 PM)", value := "noon" },
        { label := "🌆 Evening (~5 PM)", value := "evening" }] },
    { id := "vibe"
      text := "What\x27s the vibe for the day?"
      options := [
        { label := "🧘 Chill & Relaxed", value := "chill" },
        { label := "🎯 Active & Fun", value := "active" },
        { label := "💕 Romantic", value := "romantic" },
        { label := "🎉 Party mode", value := "party" }] },
    { id := "must_include"
      text := "Must include?"
      qtype := some ("multi_select")
      options := [
        { label := "🎬 Movie", value := "movie" },
        { label := "🍽️ Nice meal", value := "meal" },
        { label := "🛍️ Shopping", value := "shopping" },
        { label := "🌳 Outdoors", value := "outdoors" },
        { label := "☕ Cafe time", value := "cafe" }] },
    { id := "budget"
      text := "Budget for the day?"
      options := [
        { label := "💰 Under ₹1000", value := "budget" },
        { label := "💳 ₹1000-3000", value := "mid" },
        { label := "💎 No limit", value := "premium" }] }]),
  ("date", [
    { id := "date_type"
      text := "What kind of date?"
      options := [
        { label := "🍽️ Dinner date", value := "dinner" },
        { label := "🎬 Movie + dinner", value := "movie_dinner" },
        { label := "🌆 Full day out", value := "full_day" },
        { label := "🌃 Night out", value := "nightlife" }] },
    { id := "budget"
      text := "Budget?"
      options := [
        { label := "💳 Normal", value := "mid" },
        { label := "💎 Splurge", value := "premium" }] }])]

/-- `get_next_question` (src/app.py lines 235-255): first question in
declaration order that is not yet answered and whose dependencies are all
satisfied by an allowed answer value. -/
def get_next_question (intent : String) (answers : List (String × String)) :
    Option Question :=
  let questions := (alookup intent CLARIFYING_QUESTIONS).getD []
  questions.find? (fun q =>
    (alookup q.id answers).isNone &&
    q.depends_on.all (fun dep =>
      match alookup dep.1 answers with
      | some v => decide (v ∈ dep.2)
      | none => false))

/-- `is_conversation_complete` (src/app.py lines 258-260). -/
def is_conversation_complete (intent : String)
    (answers : List (String × String)) : Bool :=
  (get_next_question intent answers).isNone

/-- Eligibility of a question, stated in the spec's vocabulary: not yet
answered, and every dependency entry is satisfied by an allowed value. -/
def questionEligible (q : Question) (answers : List (String × String)) : Prop :=
  alookup q.id answers = none ∧
  ∀ dep ∈ q.depends_on, ∃ v, alookup dep.1 answers = some v ∧ v ∈ dep.2

instance (q : Question) (answers : List (String × String)) :
    Decidable (questionEligible q answers) := by
  unfold questionEligible; infer_instance

/-- One entry of the static intent catalog (src/app.py lines 268-323):
keywords, emoji, default chain and expected duration in minutes.
Durations are modelled as rationals (Python numbers). -/
structure IntentPattern where
  keywords : List String
  emoji : String
  chain : List String
  duration_mins : ℚ
deriving DecidableEq

/-- The "explore" pattern, also the fallback entry used by
`build_activity_chain` via `INTENT_PATTERNS.get(..., INTENT_PATTERNS["explore"])`. -/
def EXPLORE_PATTERN : IntentPattern :=
  { keywords := ["explore", "discover", "what\x27s around", "nearby", "visit",
      "sightseeing", "tourist"]
    emoji := "🗺️", chain := ["explore", "food_check"], duration_mins := 180 }

/-- The static intent catalog, in source declaration order. -/
def INTENT_PATTERNS : List (String × IntentPattern) := [
  ("movie",
    { keywords := ["movie", "film", "cinema", "watch", "theatre", "theater",
        "show", "multiplex", "pvr", "inox"]
      emoji := "🎬", chain := ["movie", "food_check", "transport"]
      duration_mins := 180 }),
  ("food",
    { keywords := ["hungry", "eat", "food", "restaurant", "dinner", "lunch",
        "breakfast", "cafe", "coffee", "snack", "biryani", "pizza", "burger",
        "dhaba"]
      emoji := "🍽️", chain := ["food"], duration_mins := 90 }),
  ("bored",
    { keywords := ["bored", "nothing to do", "kill time", "free time",
        "what to do", "suggest", "ideas"]
      emoji := "😴", chain := ["quick_activity", "food_check"]
      duration_mins := 120 }),
  ("date",
    { keywords := ["date", "romantic", "anniversary", "special", "girlfriend",
        "boyfriend", "partner", "wife", "husband", "couple"]
      emoji := "💕", chain := ["romantic_dinner", "activity", "dessert"]
      duration_mins := 240 }),
  ("explore", EXPLORE_PATTERN),
  ("chill",
    { keywords := ["chill", "relax", "calm", "peaceful", "quiet", "unwind",
        "destress"]
      emoji := "🧘", chain := ["chill_spot", "cafe"], duration_mins := 120 }),
  ("adventure",
    { keywords := ["adventure", "thrill", "exciting", "adrenaline", "fun",
        "activity", "sports"]
      emoji := "🎢", chain := ["adventure", "food_check"], duration_mins := 180 }),
  ("shopping",
    { keywords := ["shopping", "mall", "buy", "shop", "market", "store"]
      emoji := "🛍️", chain := ["shopping", "food_check"], duration_mins := 180 }),
  ("nightlife",
    { keywords := ["club", "bar", "pub", "night", "party", "drinks", "beer",
        "cocktail", "lounge"]
      emoji := "🍸", chain := ["dinner", "nightlife"], duration_mins := 240 })]

/-- A detected intent as produced by `detect_intent`.  The synthetic
entry built for empty input carries only `intent` and `confidence`, so
the remaining dictionary keys are optional. -/
structure DetectedIntent where
  intent : String
  confidence : ℚ
  emoji : Option String := none
  chain : Option (List String) := none
  duration : Option ℚ := none
deriving DecidableEq

/-- Number of case-insensitive substring keyword hits of a pattern in the
(lowered) input. -/
def matchCount (p : IntentPattern) (lowerInput : String) : Nat :=
  (p.keywords.filter (fun kw => hasSub lowerInput kw)).length

/-- The dictionary appended for a matching pattern
(src/app.py lines 336-343). -/
def mkDetected (name : String) (p : IntentPattern) (m : Nat) : DetectedIntent :=
  { intent := name
    confidence := min (9/10) (3/10 + (m : ℚ) * (2/10))
    emoji := some p.emoji
    chain := some p.chain
    duration := some p.duration_mins }

/-- The matched-intent list in catalog declaration order, before sorting. -/
def matchedIntents (user_input : String) : List DetectedIntent :=
  INTENT_PATTERNS.filterMap (fun ip =>
    if 0 < matchCount ip.2 (lowerStr user_input) then
      some (mkDetected ip.1 ip.2 (matchCount ip.2 (lowerStr user_input)))
    else none)

/-- Descending-confidence ordering used by the sort. -/
def confDesc (a b : DetectedIntent) : Prop := b.confidence ≤ a.confidence

instance : DecidableRel confDesc :=
  fun _ _ => inferInstanceAs (Decidable (_ ≤ _))

instance : IsTotal DetectedIntent confDesc :=
  ⟨fun a b => le_total b.confidence a.confidence⟩

instance : IsTrans DetectedIntent confDesc :=
  ⟨fun _ _ _ h1 h2 => le_trans h2 h1⟩

/-- `detect_intent` (src/app.py lines 325-348).  Python's
`list.sort(key=confidence, reverse=True)` is a stable descending sort,
modelled by `List.insertionSort` with the descending relation (which is
stable in the same sense). -/
def detect_intent (user_input : String) : List DetectedIntent :=
  if user_input = "" then [{ intent := "explore", confidence := 1/2 }]
  else
    let detected := List.insertionSort confDesc (matchedIntents user_input)
    if detected.isEmpty then
      [{ intent := "explore", confidence := 1/2, emoji := some ("🗺️")
         chain := some ["explore"], duration := some 180 }]
    else detected

/-- Meal windows (24h clock) from src/app.py lines 809-813. -/
def LUNCH : ℚ × ℚ := (12, 29/2)

def SNACK : ℚ × ℚ := (16, 18)

def DINNER : ℚ × ℚ := (19, 43/2)

/-- `calculate_food_need` (src/app.py lines 802-833): hours are Python
floats, modelled as rationals; the checks run in source order, first
match wins. -/
def calculate_food_need (current_hour activity_duration_mins : ℚ) :
    Option String :=
  let end_hour := current_hour + activity_duration_mins / 60
  if LUNCH.1 ≤ end_hour ∧ end_hour ≤ LUNCH.2 + 1/2 then some ("lunch_after")
  else if DINNER.1 ≤ end_hour ∧ end_hour ≤ DINNER.2 + 1/2 then some ("dinner_after")
  else if LUNCH.1 ≤ current_hour ∧ current_hour ≤ LUNCH.2 then some ("lunch_before")
  else if DINNER.1 ≤ current_hour ∧ current_hour ≤ DINNER.2 then some ("dinner_before")
  else if SNACK.1 ≤ current_hour ∧ current_hour ≤ SNACK.2 then some ("snack")
  else if SNACK.1 ≤ end_hour ∧ end_hour ≤ SNACK.2 then some ("snack_after")
  else none

/-- First-match-wins evaluation of an ordered rule list. -/
def firstSat : List (Bool × String) → Option String
  | [] => none
  | (c, r) :: rest => if c then some r else firstSat rest

/-- The meal oracle in the spec's first-match-wins presentation, with the
grace of 0.5 applied only to the upper end of the end-hour windows (the
amendment forced by the code). -/
def meal_need_amended (current_hour duration_mins : ℚ) : Option String :=
  let e := current_hour + duration_mins / 60
  firstSat [
    (decide (12 ≤ e ∧ e ≤ 29/2 + 1/2), "lunch_after"),
    (decide (19 ≤ e ∧ e ≤ 43/2 + 1/2), "dinner_after"),
    (decide (12 ≤ current_hour ∧ current_hour ≤ 29/2), "lunch_before"),
    (decide (19 ≤ current_hour ∧ current_hour ≤ 43/2), "dinner_before"),
    (decide (16 ≤ current_hour ∧ current_hour ≤ 18), "snack"),
    (decide (16 ≤ e ∧ e ≤ 18), "snack_after")]

/-- Python `str.replace` on character lists (all non-overlapping
occurrences, left to right), with fuel for termination. -/
def replChars : Nat → List Char → List Char → List Char → List Char
  | 0, s, _, _ => s
  | _ + 1, [], _, _ => []
  | fuel + 1, c :: t, pat, rep =>
    if !pat.isEmpty && prefChars pat (c :: t) then
      rep ++ replChars fuel ((c :: t).drop pat.length) pat rep
    else c :: replChars fuel t pat rep

def pyReplace (s pat rep : String) : String :=
  ⟨replChars s.data.length s.data pat.data rep.data⟩

/-- One item of an activity chain.  Keys absent from a given Python
dictionary are modelled as `none`. -/
structure ChainItem where
  type : String
  priority : String
  subtype : Option String := none
  position : Option String := none
  reason : Option String := none
  search_query : Option String := none
deriving DecidableEq

/-- The primary chain item (src/app.py lines 846-850); its
`search_query` key holds Python `None`. -/
def primaryItem (intent : String) : ChainItem :=
  { type := intent, priority := "primary" }

/-- The anticipated food item appended for a non-None meal need
(src/app.py lines 855-865). -/
def foodChainItem (food_need : String) : ChainItem :=
  let position := if hasSub food_need "before" then "before" else "after"
  let meal_type := pyReplace (pyReplace food_need "_before" "") "_after" ""
  { type := "food", subtype := some meal_type, priority := "anticipated"
    position := some position
    reason := some ("You\x27ll probably want " ++ meal_type ++ " " ++ position
      ++ " your activity") }

/-- The late-show item for movies at or after 19:00 (lines 868-876). -/
def lateNightFoodItem : ChainItem :=
  { type := "late_night_food", priority := "anticipated"
    position := some ("after")
    reason := some ("Perfect for a post-movie meal!") }

/-- The bonus dessert item for dates (lines 878-885). -/
def dessertItem : ChainItem :=
  { type := "dessert", priority := "bonus"
    position := some ("after")
    reason := some ("End the night on a sweet note 🍰") }

/-- The request context consumed by `build_activity_chain`:
`context.get('local_hour', 12)`. -/
structure AssistContext where
  local_hour : Option ℚ := none

/-- `build_activity_chain` (src/app.py lines 836-887): primary item,
then the anticipated food item when the oracle reports a need, then the
movie/date special cases, in source append order. -/
def build_activity_chain (primary_intent : String) (context : AssistContext) :
    List ChainItem :=
  let current_hour := context.local_hour.getD 12
  let intent_data := (alookup primary_intent INTENT_PATTERNS).getD EXPLORE_PATTERN
  let food_need := calculate_food_need current_hour intent_data.duration_mins
  primaryItem primary_intent ::
    ((match food_need with
      | some fn => [foodChainItem fn]
      | none => []) ++
     (if primary_intent = "movie" ∧ 19 ≤ current_hour then [lateNightFoodItem]
      else []) ++
     (if primary_intent = "date" then [dessertItem] else []))

/-- ASCII whitespace (space, tab, newline, carriage return), by code. -/
def isSpaceC (c : Char) : Bool :=
  ([32, 9, 10, 13] : List Nat).contains c.toNat

def trimStr (s : String) : String :=
  ⟨((s.data.dropWhile isSpaceC).reverse.dropWhile isSpaceC).reverse⟩

/-- Address components returned by the reverse-geocoding collaborator. -/
structure GeoAddress where
  city : Option String := none
  town : Option String := none
  suburb : Option String := none
  state : Option String := none

/-- The request fields relevant to `resolve_location`: the top-level
`plan_type` and the `context` fields.  `location` defaults to the empty
string as in `data.get('context', {}).get('location', '')`. -/
structure LocationRequest where
  plan_type : Option String := none
  destination : Option String := none
  coordinates : Option (ℚ × ℚ) := none
  location : String := ""

/-- Python `a or b` on optional strings (an empty string is falsy). -/
def pyOrS : Option String → Option String → Option String
  | some s, b => if s = "" then b else some s
  | none, b => b

/-- `resolve_location` (src/app.py lines 1259-1280).  The geocoding
collaborator is a parameter `geo`; an exception or a missing result is
`none`.  Coordinates are tried first, then the free-text location
filtered for the placeholder words, then the default city. -/
def resolve_location (has_geopy : Bool) (geo : ℚ × ℚ → Option GeoAddress)
    (data : LocationRequest) : String :=
  let loc_input := data.location
  let textStep : String :=
    if loc_input ≠ "" ∧ hasSub (lowerStr loc_input) "found" = false ∧
        hasSub (lowerStr loc_input) "location" = false then
      trimStr loc_input
    else "Gurugram"
  match data.coordinates, has_geopy with
  | some c, true =>
    match geo c with
    | some address =>
      (match pyOrS address.city (pyOrS address.town
          (pyOrS address.suburb address.state)) with
       | some city => if city = "" then textStep else city
       | none => textStep)
    | none => textStep
  | _, _ => textStep

/-- A per-user preference record and the in-memory store
(`USER_PREFERENCES`), as association lists. -/
abbrev PrefMap := List (String × String)

abbrev PrefStore := List (String × PrefMap)

/-- Python truthiness of an optional string (`None` and `""` are falsy). -/
def pyTruthy : Option String → Bool
  | none => false
  | some s => !(s == "")

/-- Python `{**old, **new}`: keys of `old` in order with values
overridden by `new`, then keys of `new` not in `old`, in order. -/
def dictMerge (old new : PrefMap) : PrefMap :=
  old.map (fun kv => (kv.1, (alookup kv.1 new).getD kv.2)) ++
  new.filter (fun kv => (alookup kv.1 old).isNone)

/-- Python `d[k] = v` on the store: replace in place, else append. -/
def storeSet (store : PrefStore) (k : String) (v : PrefMap) : PrefStore :=
  if (alookup k store).isSome then
    store.map (fun kv => if kv.1 = k then (k, v) else kv)
  else store ++ [(k, v)]

/-- `save_user_preferences` (src/app.py lines 1186-1191): on a truthy
user id, merge the new preferences over the stored record and return
`True`; otherwise return `False` and leave the store unchanged. -/
def save_user_preferences (store : PrefStore) (user_id : Option String)
    (prefs : PrefMap) : Bool × PrefStore :=
  match user_id with
  | some uid =>
    if uid = "" then (false, store)
    else (true, storeSet store uid (dictMerge ((alookup uid store).getD []) prefs))
  | none => (false, store)

/-- The request body of `POST /api/preferences`. -/
structure PrefRequest where
  user_id : Option String := none
  fingerprint : String := ""
  preferences : PrefMap := []

/-- `get_user_id` (src/app.py lines 1173-1178); the md5-hex fingerprint
digest is an external pure function passed as a parameter. -/
def get_user_id (md5hex12 : String → String) (request_data : PrefRequest) :
    Option String :=
  if request_data.fingerprint ≠ "" then some (md5hex12 request_data.fingerprint)
  else none

/-- The `save_prefs` route (src/app.py lines 1835-1844), returning the
HTTP status code and the updated store. -/
def save_prefs (md5hex12 : String → String) (store : PrefStore)
    (data : PrefRequest) : Nat × PrefStore :=
  let uid : Option String :=
    match data.user_id with
    | some s => if s = "" then get_user_id md5hex12 data else some s
    | none => get_user_id md5hex12 data
  let r := save_user_preferences store uid data.preferences
  (if r.1 then 200 else 400, r.2)

/-- A generated plan as seen by the validator: timeline entry titles and
the serialized plan text. -/
structure Plan where
  timeline : List String
  serialized : String

/-- Modelled from the spec: src/app.py contains no `validate` function,
so the wrong-city literals of §4.8(a) are modelled from the spec's
"known wrong-city literal (e.g., a placeholder city)". -/
def wrongCityLiterals : List String := ["Delhi"]

/-- Modelled from the spec: the generic place-name denylist of §4.8(b)
("local cafe", "nearby restaurant", etc.). -/
def genericNameDenylist : List String := ["local cafe", "nearby restaurant"]

/-- Modelled from the spec: the Validator (§4.8) is absent from
src/app.py; `validate(plan, expected_city, time_phase)` returns issue
tags: (a) wrong-city when the serialized plan mentions a known
wrong-city literal that differs from the expected city; (b) generic-name
when any timeline title contains a denylisted phrase (case-insensitive
substring); (c) too-few-stops when the timeline has fewer than 2
entries, waived entirely when `time_phase == "late_night"`. -/
def validate (plan : Plan) (expected_city : String) (time_phase : String) :
    List String :=
  (if wrongCityLiterals.any
      (fun w => hasSub plan.serialized w && !(w == expected_city)) then
    ["wrong_city"]
   else []) ++
  (if plan.timeline.any
      (fun t => genericNameDenylist.any (fun g => hasSub (lowerStr t) g)) then
    ["generic_name"]
   else []) ++
  (if time_phase ≠ "late_night" ∧ plan.timeline.length < 2 then
    ["too_few_stops"]
   else [])

/-- JSON values.  Numerals are modelled as integers; the replies
exercised here contain no fractional or exponent numerals. -/
inductive Json where
  | jnull : Json
  | jbool : Bool → Json
  | jnum : Int → Json
  | jstr : String → Json
  | jarr : List Json → Json
  | jobj : List (String × Json) → Json

/-- The opening and closing curly brackets as characters. -/
def lbrace : Char := Char.ofNat 123

def rbrace : Char := Char.ofNat 125

/-- Skip JSON whitespace. -/
def jws : List Char → List Char
  | [] => []
  | c :: t => if isSpaceC c then jws t else c :: t

/-- JSON string escapes, by character code: quote, backslash and slash
map to themselves, `n`/`t`/`r`/`b`/`f` to their control characters (the
`\uXXXX` form is outside this model). -/
def escChar (c : Char) : Option Char :=
  match c.toNat with
  | 34 => some c
  | 92 => some c
  | 47 => some c
  | 110 => some (Char.ofNat 10)
  | 116 => some (Char.ofNat 9)
  | 114 => some (Char.ofNat 13)
  | 98 => some (Char.ofNat 8)
  | 102 => some (Char.ofNat 12)
  | _ => none

/-- Parse the remainder of a JSON string after the opening quote. -/
def parseStrTail : List Char → Option (List Char × List Char)
  | [] => none
  | c :: t =>
    if c == '"' then some ([], t)
    else if c == '\\' then
      match t with
      | [] => none
      | e :: t2 =>
        match escChar e with
        | none => none
        | some ec =>
          match parseStrTail t2 with
          | none => none
          | some (s, r) => some (ec :: s, r)
    else
      match parseStrTail t with
      | none => none
      | some (s, r) => some (c :: s, r)

/-- Split a leading run of decimal digits. -/
def digitsSplit : List Char → List Char × List Char
  | [] => ([], [])
  | c :: t =>
    if c.isDigit then
      let (ds, r) := digitsSplit t
      (c :: ds, r)
    else ([], c :: t)

def digitsToNat (ds : List Char) : Nat :=
  ds.foldl (fun acc c => acc * 10 + (c.toNat - 48)) 0

/-- Parse an unsigned integer numeral; a following `.`/`e`/`E`
(fractional or exponent form) is outside this model. -/
def parseNumTail (cs : List Char) : Option (Int × List Char) :=
  let (ds, r) := digitsSplit cs
  if ds.isEmpty then none
  else
    match r with
    | c :: _ =>
      if c == '.' || c == 'e' || c == 'E' then none
      else some ((digitsToNat ds : Int), r)
    | [] => some ((digitsToNat ds : Int), [])

mutual

/-- Parse one JSON value (Python `json.loads` grammar), fuelled. -/
def parseVal : Nat → List Char → Option (Json × List Char)
  | 0, _ => none
  | fuel + 1, cs =>
    match jws cs with
    | [] => none
    | c :: t =>
      if c == lbrace then
        match jws t with
        | c2 :: t2 =>
          if c2 == rbrace then some (Json.jobj [], t2)
          else
            match parseMembers fuel (c2 :: t2) with
            | some (ms, r) => some (Json.jobj ms, r)
            | none => none
        | [] => none
      else if c == '[' then
        match jws t with
        | c2 :: t2 =>
          if c2 == ']' then some (Json.jarr [], t2)
          else
            match parseItems fuel (c2 :: t2) with
            | some (vs, r) => some (Json.jarr vs, r)
            | none => none
        | [] => none
      else if c == '"' then
        match parseStrTail t with
        | some (s, r) => some (Json.jstr ⟨s⟩, r)
        | none => none
      else if c == 't' then
        if prefChars ("rue").data t then some (Json.jbool true, t.drop 3)
        else none
      else if c == 'f' then
        if prefChars ("alse").data t then some (Json.jbool false, t.drop 4)
        else none
      else if c == 'n' then
        if prefChars ("ull").data t then some (Json.jnull, t.drop 3) else none
      else if c == '-' then
        match parseNumTail t with
        | some (n, r) => some (Json.jnum (-n), r)
        | none => none
      else if c.isDigit then
        match parseNumTail (c :: t) with
        | some (n, r) => some (Json.jnum n, r)
        | none => none
      else none

/-- Parse one or more `"key": value` members, ending at `}`. -/
def parseMembers : Nat → List Char → Option (List (String × Json) × List Char)
  | 0, _ => none
  | fuel + 1, cs =>
    match cs with
    | [] => none
    | c :: t =>
      if c == '"' then
        match parseStrTail t with
        | some (key, r1) =>
          match jws r1 with
          | c2 :: r2 =>
            if c2 == ':' then
              match parseVal fuel r2 with
              | some (v, r3) =>
                match jws r3 with
                | c3 :: r4 =>
                  if c3 == ',' then
                    match parseMembers fuel (jws r4) with
                    | some (rest, r5) => some (((⟨key⟩ : String), v) :: rest, r5)
                    | none => none
                  else if c3 == rbrace then some ([((⟨key⟩ : String), v)], r4)
                  else none
                | [] => none
              | none => none
            else none
          | [] => none
        | none => none
      else none

/-- Parse one or more array items, ending at `]`. -/
def parseItems : Nat → List Char → Option (List Json × List Char)
  | 0, _ => none
  | fuel + 1, cs =>
    match parseVal fuel cs with
    | some (v, r) =>
      match jws r with
      | c :: r2 =>
        if c == ',' then
          match parseItems fuel r2 with
          | some (vs, r3) => some (v :: vs, r3)
          | none => none
        else if c == ']' then some ([v], r2)
        else none
      | [] => none
    | none => none

end

/-- Python `json.loads`: parse one value and require only whitespace to
follow (else the `Extra data` error, modelled as `none`). -/
def json_loads (s : String) : Option Json :=
  match parseVal (2 * s.data.length + 2) s.data with
  | some (v, rest) => if (jws rest).isEmpty then some v else none
  | none => none

/-- The fixed fallback payload returned by `assist` on a JSON parse
error (src/app.py lines 1477-1494). -/
def assistFallback (city : String) : Json :=
  Json.jobj [
    ("greeting", Json.jstr ("Let me help you with that!")),
    ("chain_explanation", Json.jstr ("I\x27m thinking about what you need...")),
    ("cards", Json.jarr [Json.jobj [
      ("card_type", Json.jstr ("primary")),
      ("emoji", Json.jstr ("🔄")),
      ("title", Json.jstr ("Let me try again")),
      ("subtitle", Json.jstr ("Something went sideways")),
      ("options", Json.jarr [Json.jobj [
        ("name", Json.jstr ("Tap to retry")),
        ("highlight", Json.jstr ("I\x27ll give it another shot")),
        ("google_query", Json.jstr ("things to do in " ++ city))]])]]),
    ("closing", Json.jstr ("Hit retry and I\x27ll figure this out! 🚀"))]

/-- The response normalization of `assist` (src/app.py lines 1460-1494):
one direct `json.loads` of the stripped reply; any parse failure
substitutes the fixed fallback payload. -/
def assist_parse (city raw : String) : Json :=
  match json_loads (trimStr raw) with
  | some v => v
  | none => assistFallback city

/-- `strStarts s pre` is Python `s.startswith(pre)`. -/
def strStarts (s pre : String) : Bool := prefChars pre.data s.data

/-- Python `str.split(sep)` for a non-empty separator, fuelled. -/
def splitOnAux : Nat → List Char → List Char → List Char → List (List Char)
  | 0, cs, _, acc => [acc.reverse ++ cs]
  | fuel + 1, cs, sep, acc =>
    match cs with
    | [] => [acc.reverse]
    | c :: t =>
      if prefChars sep cs then
        acc.reverse :: splitOnAux fuel (cs.drop sep.length) sep []
      else
        splitOnAux fuel t sep (c :: acc)

def pySplit (s sep : String) : List String :=
  (splitOnAux (s.data.length + 1) s.data sep.data []).map
    (fun l => (⟨l⟩ : String))

def dropChars (s : String) (n : Nat) : String := ⟨s.data.drop n⟩

/-- The fence-stripping of `wizard_movies` (src/app.py lines 496-501):
strip, take the text between the first pair of ``` fences if the reply
is fenced, drop a leading `json` tag, strip again. -/
def wizard_clean (response : String) : String :=
  let json_str := trimStr response
  let json_str :=
    if strStarts json_str "```" then
      let j := (pySplit json_str "```").getD 1 ""
      if strStarts j "json" then dropChars j 4 else j
    else json_str
  trimStr json_str

/-- The movie-list parse of `wizard_movies`: `json.loads` after fence
stripping; a failure is caught and replaced by a fallback upstream. -/
def wizard_parse (raw : String) : Option Json :=
  json_loads (wizard_clean raw)

end TravelBuddy

namespace TravelBuddy

/-- The Boolean predicate used by `get_next_question` agrees with the
spec-level eligibility proposition. -/
theorem eligible_bool_iff (q : Question) (answers : List (String × String)) :
    ((alookup q.id answers).isNone &&
      q.depends_on.all (fun dep =>
        match alookup dep.1 answers with
        | some v => decide (v ∈ dep.2)
        | none => false)) = true ↔ questionEligible q answers := by
  rw [Bool.and_eq_true, List.all_eq_true]
  constructor
  · rintro ⟨h1, h2⟩
    refine ⟨Option.isNone_iff_eq_none.mp h1, fun dep hdep => ?_⟩
    have := h2 dep hdep
    cases hv : alookup dep.1 answers with
    | none => rw [hv] at this; exact absurd this (by simp)
    | some v => rw [hv] at this; exact ⟨v, rfl, of_decide_eq_true this⟩
  · rintro ⟨h1, h2⟩
    refine ⟨Option.isNone_iff_eq_none.mpr h1, fun dep hdep => ?_⟩
    obtain ⟨v, hv, hmem⟩ := h2 dep hdep
    rw [hv]
    exact decide_eq_true hmem

/-- If `find?` returns `a`, the list splits as a prefix of failures,
then `a`. -/
theorem find_eq_some_split {α : Type} (p : α → Bool) :
    ∀ {l : List α} {a : α}, l.find? p = some a →
      ∃ l₁ l₂, l = l₁ ++ a :: l₂ ∧ ∀ x ∈ l₁, p x = false := by
  intro l
  induction l with
  | nil => intro a h; simp [List.find?] at h
  | cons x t ih =>
    intro a h
    by_cases hx : p x = true
    · rw [List.find?_cons_of_pos _ hx] at h
      cases h
      exact ⟨[], t, rfl, by simp⟩
    · have hx' : p x = false := by simpa using hx
      rw [List.find?_cons_of_neg _ (by simp [hx'])] at h
      obtain ⟨l₁, l₂, rfl, hfail⟩ := ih h
      exact ⟨x :: l₁, l₂, rfl, by
        intro y hy
        rcases List.mem_cons.mp hy with rfl | hy
        · exact hx'
        · exact hfail y hy⟩

/-- Claim C6: for every intent label and answers map, `get_next_question`
returns the first question in declaration order that is neither already
answered nor dependency-blocked (in particular it never returns an
answered question), returns `none` exactly when no eligible question
remains, and concretely `get_next_question "movie" {food_timing: none}`
skips `food_type` and returns the `movie_pref` question. -/
theorem claim_C6_next_question_first_eligible :
    (∀ intent answers q, get_next_question intent answers = some q →
        questionEligible q answers ∧
        ∃ l₁ l₂, (alookup intent CLARIFYING_QUESTIONS).getD [] = l₁ ++ q :: l₂ ∧
          ∀ q' ∈ l₁, ¬ questionEligible q' answers) ∧
    (∀ intent answers, get_next_question intent answers = none ↔
        ∀ q ∈ (alookup intent CLARIFYING_QUESTIONS).getD [],
          ¬ questionEligible q answers) ∧
    get_next_question ("movie") [("food_timing", "none")] = some moviePrefQ ∧
    moviePrefQ.id = "movie_pref" := by
  refine ⟨?_, ?_, ?_, rfl⟩
  · intro intent answers q h
    unfold get_next_question at h
    have hq := List.find?_some h
    obtain ⟨l₁, l₂, hsplit, hfail⟩ := find_eq_some_split _ h
    refine ⟨(eligible_bool_iff q answers).mp hq, l₁, l₂, hsplit, ?_⟩
    intro q' hq' hcon
    have := hfail q' hq'
    rw [← eligible_bool_iff q' answers] at hcon
    rw [this] at hcon
    exact Bool.false_ne_true hcon
  · intro intent answers
    unfold get_next_question
    rw [List.find?_eq_none]
    constructor
    · intro h q hmem hcon
      exact h q hmem ((eligible_bool_iff q answers).mpr hcon)
    · intro h q hmem hcon
      exact h q hmem ((eligible_bool_iff q answers).mp hcon)
  · rfl

/-- Witness for C6 at the concrete movie conversation: applies the claim
theorem to the input `("movie", {food_timing: none})`. -/
theorem claim_C6_witness :
    questionEligible moviePrefQ [("food_timing", "none")] ∧
    ∃ l₁ l₂,
      (alookup ("movie") CLARIFYING_QUESTIONS).getD [] = l₁ ++ moviePrefQ :: l₂ ∧
      ∀ q' ∈ l₁, ¬ questionEligible q' [("food_timing", "none")] :=
  claim_C6_next_question_first_eligible.1 ("movie") [("food_timing", "none")]
    moviePrefQ claim_C6_next_question_first_eligible.2.2.1

/-- Claim C10: an intent with no entry in the clarifying-question catalog
yields no question and an immediately complete conversation, for every
answers map; the labels `explore`, `chill`, `adventure`, `shopping` and
`nightlife` are all such intents. -/
theorem claim_C10_unknown_intent_complete :
    (∀ intent answers, alookup intent CLARIFYING_QUESTIONS = none →
        get_next_question intent answers = none ∧
        is_conversation_complete intent answers = true) ∧
    ∀ i ∈ (["explore", "chill", "adventure", "shopping", "nightlife"] :
        List String), alookup i CLARIFYING_QUESTIONS = none := by
  constructor
  · intro intent answers h
    have hq : get_next_question intent answers = none := by
      unfold get_next_question
      rw [h]
      rfl
    exact ⟨hq, by rw [is_conversation_complete, hq]; rfl⟩
  · decide

/-- Witness for C10: applies the claim theorem at the concrete intent
`explore` with a nonempty answers map. -/
theorem claim_C10_witness :
    get_next_question ("explore") [("budget", "mid")] = none ∧
    is_conversation_complete ("explore") [("budget", "mid")] = true :=
  claim_C10_unknown_intent_complete.1 ("explore") [("budget", "mid")]
    (by decide)

/-- Every member of the matched list arises from a catalog pattern with a
positive keyword-hit count and the closed-form confidence. -/
theorem mem_matchedIntents {s : String} {d : DetectedIntent}
    (hd : d ∈ matchedIntents s) :
    ∃ p ∈ INTENT_PATTERNS, d = mkDetected p.1 p.2 (matchCount p.2 (lowerStr s)) ∧
      0 < matchCount p.2 (lowerStr s) := by
  unfold matchedIntents at hd
  obtain ⟨ip, hip, hd'⟩ := List.mem_filterMap.mp hd
  by_cases h : 0 < matchCount ip.2 (lowerStr s)
  · rw [if_pos h] at hd'
    exact ⟨ip, hip, (Option.some.inj hd').symm, h⟩
  · rw [if_neg h] at hd'
    exact absurd hd' (by simp)

/-- Claim C5: for every input string `detect_intent` returns a non-empty
list sorted by non-increasing confidence; every matched intent comes from
a catalog pattern with a positive case-insensitive substring hit count
and confidence `min(0.9, 0.3 + 0.2*count)`; ties keep catalog declaration
order (the sort is stable); and when no pattern matches the result is a
single synthetic "explore" entry with confidence 0.5. -/
theorem claim_C5_detect_intent (s : String) :
    detect_intent s ≠ [] ∧
    (detect_intent s).Pairwise confDesc ∧
    (∀ d ∈ matchedIntents s, d ∈ detect_intent s) ∧
    (∀ d ∈ matchedIntents s, ∃ p ∈ INTENT_PATTERNS, d.intent = p.1 ∧
        0 < matchCount p.2 (lowerStr s) ∧
        d.confidence = min (9/10) (3/10 + (matchCount p.2 (lowerStr s) : ℚ) * (2/10))) ∧
    (∀ a b, List.Sublist [a, b] (matchedIntents s) → a.confidence = b.confidence →
        List.Sublist [a, b] (detect_intent s)) ∧
    (matchedIntents s = [] →
        (detect_intent s).map (fun d => (d.intent, d.confidence)) =
          [("explore", 1/2)]) := by
  have hform : ∀ d ∈ matchedIntents s, ∃ p ∈ INTENT_PATTERNS, d.intent = p.1 ∧
      0 < matchCount p.2 (lowerStr s) ∧
      d.confidence = min (9/10) (3/10 + (matchCount p.2 (lowerStr s) : ℚ) * (2/10)) := by
    intro d hd
    obtain ⟨p, hp, rfl, hpos⟩ := mem_matchedIntents hd
    exact ⟨p, hp, rfl, hpos, rfl⟩
  by_cases hs : s = ""
  · subst hs
    have hm : matchedIntents "" = [] := by decide
    refine ⟨by simp [detect_intent], by simp [detect_intent], ?_, hform, ?_, ?_⟩
    · intro d hd; rw [hm] at hd; exact absurd hd (by simp)
    · intro a b hab _; rw [hm] at hab; exact absurd hab (by
        intro h; have := h.length_le; simp at this)
    · intro _; simp [detect_intent]
  · by_cases hM : matchedIntents s = []
    · have hdet : detect_intent s =
          [{ intent := "explore", confidence := 1/2, emoji := some ("🗺️")
             chain := some ["explore"], duration := some 180 }] := by
        unfold detect_intent
        rw [if_neg hs, hM]
        rfl
      refine ⟨by rw [hdet]; simp, by rw [hdet]; simp, ?_, hform, ?_, ?_⟩
      · intro d hd; rw [hM] at hd; exact absurd hd (by simp)
      · intro a b hab _; rw [hM] at hab; exact absurd hab (by
          intro h; have := h.length_le; simp at this)
      · intro _; rw [hdet]; rfl
    · have hlen : (List.insertionSort confDesc (matchedIntents s)).length =
          (matchedIntents s).length := List.length_insertionSort _ _
      have hne : (List.insertionSort confDesc (matchedIntents s)).isEmpty = false := by
        cases hcase : List.insertionSort confDesc (matchedIntents s) with
        | nil =>
          exfalso
          rw [hcase] at hlen
          exact hM (List.length_eq_zero.mp hlen.symm)
        | cons _ _ => rfl
      have hdet : detect_intent s = List.insertionSort confDesc (matchedIntents s) := by
        unfold detect_intent
        rw [if_neg hs]
        simp only [hne]
        rfl
      refine ⟨?_, ?_, ?_, hform, ?_, ?_⟩
      · rw [hdet]
        intro hcon
        rw [hcon] at hlen
        exact hM (List.length_eq_zero.mp hlen.symm)
      · rw [hdet]
        exact List.sorted_insertionSort confDesc _
      · intro d hd
        rw [hdet]
        exact (List.mem_insertionSort confDesc).mpr hd
      · intro a b hab hconf
        rw [hdet]
        exact List.pair_sublist_insertionSort (le_of_eq hconf.symm) hab
      · intro h; exact absurd h hM

/-- Witness for C5 at a concrete keyword-free input: the synthetic
"explore" default at confidence 0.5. -/
theorem claim_C5_witness :
    (detect_intent ("zz qq")).map (fun d => (d.intent, d.confidence)) =
      [("explore", 1/2)] :=
  (claim_C5_detect_intent ("zz qq")).2.2.2.2.2 (by decide)

/-- Counterexample to C4 as stated: with a literal two-sided `±0.5` grace
on the lunch window, an activity ending at hour 11.8 (start 11.7,
duration 6 minutes) ends inside the graced window `[11.5, 15]`, so the
claim demands `lunch_after`; `calculate_food_need` returns `none`
because the code graces only the upper end of the window. -/
theorem claim_C4_counterexample :
    (12 - 1/2 ≤ (117/10 : ℚ) + 6/60 ∧ (117/10 : ℚ) + 6/60 ≤ 29/2 + 1/2) ∧
    calculate_food_need (117/10) 6 = none := by
  constructor
  · constructor <;> norm_num
  · norm_num [calculate_food_need, LUNCH, SNACK, DINNER]

/-- Claim C4 (amended): the oracle evaluates its checks in the stated
fixed order with first match winning — end-hour in lunch `[12, 15]`
(grace on the upper end only), end-hour in dinner `[19, 22]`, start-hour
in lunch `[12, 14.5]`, start-hour in dinner `[19, 21.5]`, start-hour in
snack `[16, 18]`, end-hour in snack, else none — so the end-hour rule
wins whenever both match; in particular `meal_need(12.0, 20)` (end-hour
12.33) is `lunch_after`, not `lunch_before`. -/
theorem claim_C4_meal_order :
    (∀ current_hour duration_mins : ℚ,
        calculate_food_need current_hour duration_mins =
          meal_need_amended current_hour duration_mins) ∧
    calculate_food_need 12 20 = some ("lunch_after") := by
  constructor
  · intro h d
    simp [calculate_food_need, meal_need_amended, firstSat, LUNCH, SNACK, DINNER]
  · norm_num [calculate_food_need, LUNCH]

/-- Claim C8: for every intent label and current hour, the chain starts
with the primary item `{type: intent, priority: primary}`, that item is
the only one with priority `primary`, and every other item is
`anticipated` or `bonus`. -/
theorem claim_C8_chain_single_primary (intent : String)
    (context : AssistContext) :
    (build_activity_chain intent context).head? = some (primaryItem intent) ∧
    (primaryItem intent).type = intent ∧
    (primaryItem intent).priority = "primary" ∧
    ((build_activity_chain intent context).filter
        (fun c => c.priority == "primary")).length = 1 ∧
    ∀ c ∈ (build_activity_chain intent context).tail,
      c.priority = "anticipated" ∨ c.priority = "bonus" := by
  have htail : ∀ c ∈ (build_activity_chain intent context).tail,
      c.priority = "anticipated" ∨ c.priority = "bonus" := by
    intro c hc
    simp only [build_activity_chain, List.tail_cons] at hc
    rcases List.mem_append.mp hc with h1 | hdate
    · rcases List.mem_append.mp h1 with hfood | hmovie
      · revert hfood
        cases calculate_food_need ((context.local_hour).getD 12)
            ((alookup intent INTENT_PATTERNS).getD EXPLORE_PATTERN).duration_mins with
        | none => intro hfood; exact absurd hfood (by simp)
        | some fn =>
          intro hfood
          rw [List.mem_singleton.mp hfood]
          left; rfl
      · revert hmovie
        split
        · intro hmovie
          rw [List.mem_singleton.mp hmovie]
          left; rfl
        · intro hmovie; exact absurd hmovie (by simp)
    · revert hdate
      split
      · intro hdate
        rw [List.mem_singleton.mp hdate]
        right; rfl
      · intro hdate; exact absurd hdate (by simp)
  have hcons : build_activity_chain intent context =
      primaryItem intent :: (build_activity_chain intent context).tail := rfl
  refine ⟨?_, rfl, rfl, ?_, htail⟩
  · rw [hcons]; rfl
  · have hrest : ((build_activity_chain intent context).tail.filter
        (fun c => c.priority == "primary")) = [] := by
      refine List.filter_eq_nil_iff.mpr ?_
      intro c hc
      rcases htail c hc with h | h <;> simp [h]
    rw [hcons, List.filter_cons]
    simp only [primaryItem]
    rw [hrest]
    rfl

/-- Witness for C8 at the concrete chain for a date at 18:00: the head
is the primary item and the concrete tail member `dessertItem` is
non-primary. -/
theorem claim_C8_witness :
    (build_activity_chain ("date") { local_hour := some 18 }).head? =
      some (primaryItem ("date")) ∧
    (dessertItem.priority = "anticipated" ∨ dessertItem.priority = "bonus") := by
  have h := claim_C8_chain_single_primary ("date") { local_hour := some 18 }
  have hdur : ((alookup ("date") INTENT_PATTERNS).getD EXPLORE_PATTERN).duration_mins
      = 240 := rfl
  have htail : (build_activity_chain ("date") { local_hour := some 18 }).tail =
      [foodChainItem ("dinner_after"), dessertItem] := by
    norm_num [build_activity_chain, hdur, calculate_food_need, LUNCH, SNACK,
      DINNER, show ("date" : String) ≠ "movie" from by decide]
  exact ⟨h.1, h.2.2.2.2 dessertItem (by rw [htail]; simp)⟩

/-- Counterexample to C1 as stated: the request declares plan type
`TRIP` with the valid destination `Paris` (length > 2, no placeholder
word), yet `resolve_location` returns the default city, not the
destination — the function never reads the destination field. -/
theorem claim_C1_counterexample :
    (("Paris" : String).length > 2 ∧
      hasSub (lowerStr ("Paris")) "found" = false ∧
      hasSub (lowerStr ("Paris")) "location" = false) ∧
    resolve_location true (fun _ => none)
      { plan_type := some ("TRIP"), destination := some ("Paris") } =
      "Gurugram" ∧
    ("Gurugram" : String) ≠ "Paris" := by
  refine ⟨by decide, rfl, by decide⟩

/-- Claim C1 (amended): `resolve_location` ignores the plan type and the
destination entirely — changing them never changes the result — and a
trip request whose context carries only a destination (such as the
placeholder `"Location Found"`, but equally any other destination) falls
through to the coordinate/default path, yielding the default city when
no coordinates resolve. -/
theorem claim_C1_destination_ignored :
    (∀ (hg : Bool) (geo : ℚ × ℚ → Option GeoAddress)
        (p p' d d' : Option String) (c : Option (ℚ × ℚ)) (loc : String),
        resolve_location hg geo
          { plan_type := p, destination := d, coordinates := c, location := loc } =
        resolve_location hg geo
          { plan_type := p', destination := d', coordinates := c, location := loc }) ∧
    (∀ (hg : Bool) (geo : ℚ × ℚ → Option GeoAddress),
        resolve_location hg geo
          { plan_type := some ("TRIP"), destination := some ("Location Found") } =
          "Gurugram") := by
  exact ⟨fun _ _ _ _ _ _ _ _ => rfl, fun _ _ => rfl⟩

/-- Claim C7 fails on the code: a whitespace-only free-text location is
truthy and passes the placeholder filter, so the code returns
`loc_input.strip()`, which is the empty string — contradicting the
contract that `resolve_location` never returns an empty string. -/
theorem claim_C7_whitespace_location_returns_empty
    (hg : Bool) (geo : ℚ × ℚ → Option GeoAddress) :
    resolve_location hg geo { location := " " } = "" := by
  cases hg <;> rfl

/-- Claim C3 (spec-modelled): `validate` includes `too_few_stops` for a
timeline shorter than 2 exactly when the time phase is not
`late_night`; concretely for the empty timeline in Paris. -/
theorem claim_C3_too_few_stops :
    (∀ (plan : Plan) (city phase : String), plan.timeline.length < 2 →
        (("too_few_stops" ∈ validate plan city phase) ↔ phase ≠ "late_night")) ∧
    "too_few_stops" ∈
      validate { timeline := [], serialized := "" } ("Paris") ("evening") ∧
    "too_few_stops" ∉
      validate { timeline := [], serialized := "" } ("Paris") ("late_night") := by
  refine ⟨?_, by decide, by decide⟩
  intro plan city phase hlen
  unfold validate
  constructor
  · intro hmem
    rcases List.mem_append.mp hmem with h12 | h3
    · exfalso
      rcases List.mem_append.mp h12 with h1 | h2
      · revert h1; split
        · intro h1; exact absurd (List.mem_singleton.mp h1) (by decide)
        · intro h1; exact absurd h1 (by simp)
      · revert h2; split
        · intro h2; exact absurd (List.mem_singleton.mp h2) (by decide)
        · intro h2; exact absurd h2 (by simp)
    · revert h3; split
      · rename_i hcond; intro _; exact hcond.1
      · intro h3; exact absurd h3 (by simp)
  · intro hphase
    refine List.mem_append.mpr (Or.inr ?_)
    rw [if_pos ⟨hphase, hlen⟩]
    exact List.mem_singleton.mpr rfl

/-- Witness for C3: the waiver test applied at a one-stop evening plan. -/
theorem claim_C3_witness :
    "too_few_stops" ∈
      validate { timeline := ["Cyber Hub walk"], serialized := "plan" }
        ("Paris") ("morning") :=
  (claim_C3_too_few_stops.1
      { timeline := ["Cyber Hub walk"], serialized := "plan" }
      ("Paris") ("morning") (by decide)).mpr (by decide)

/-- Lookup after the override pass of a dictionary merge. -/
theorem alookup_map_override (old new : PrefMap) (k : String) :
    alookup k (old.map (fun kv => (kv.1, (alookup kv.1 new).getD kv.2))) =
      (alookup k old).map (fun v => (alookup k new).getD v) := by
  induction old with
  | nil => rfl
  | cons a t ih =>
    obtain ⟨a1, a2⟩ := a
    simp only [List.map_cons, alookup]
    by_cases h : k = a1
    · subst h; rw [if_pos rfl, if_pos rfl]; rfl
    · rw [if_neg h, if_neg h, ih]

/-- Lookup in the appended fresh-keys pass of a dictionary merge. -/
theorem alookup_filter_none (old new : PrefMap) (k : String) :
    alookup k (new.filter (fun kv => (alookup kv.1 old).isNone)) =
      if (alookup k old).isSome then none else alookup k new := by
  induction new with
  | nil =>
    cases h : alookup k old <;> simp [alookup, h]
  | cons b t ih =>
    obtain ⟨b1, b2⟩ := b
    rw [List.filter_cons]
    by_cases hk : k = b1
    · subst hk
      cases hold : alookup k old with
      | none =>
        rw [if_pos (by simp [hold])]
        simp [alookup, hold]
      | some v =>
        rw [if_neg (by simp [hold]), ih, hold]
        simp
    · have hrhs : alookup k ((b1, b2) :: t) = alookup k t := by
        simp [alookup, hk]
      cases hpred : (alookup b1 old).isNone with
      | false =>
        rw [if_neg (by simp [hpred]), ih, hrhs]
      | true =>
        rw [if_pos (by simp [hpred])]
        have hstep : alookup k ((b1, b2) ::
            t.filter (fun kv => (alookup kv.1 old).isNone)) =
            alookup k (t.filter (fun kv => (alookup kv.1 old).isNone)) := by
          simp [alookup, hk]
        rw [hstep, ih, hrhs]

/-- Lookup distributes over append, preferring the left list. -/
theorem alookup_append {β : Type} (l1 l2 : List (String × β)) (k : String) :
    alookup k (l1 ++ l2) =
      match alookup k l1 with
      | some v => some v
      | none => alookup k l2 := by
  induction l1 with
  | nil => rfl
  | cons a t ih =>
    obtain ⟨a1, a2⟩ := a
    by_cases h : k = a1
    · subst h; simp [alookup]
    · simp [alookup, h, ih]

/-- The key fact about `{**old, **new}`: a key present in `new` takes the
new value, a key only in `old` keeps its old value, and no key is ever
deleted. -/
theorem dictMerge_lookup (old new : PrefMap) (k : String) :
    alookup k (dictMerge old new) =
      match alookup k new with
      | some v => some v
      | none => alookup k old := by
  unfold dictMerge
  rw [alookup_append, alookup_map_override, alookup_filter_none]
  cases ho : alookup k old <;> cases hn : alookup k new <;> simp

/-- Replacing the record at key `k` in place. -/
theorem alookup_map_set (store : PrefStore) (k : String) (v : PrefMap) :
    alookup k (store.map (fun kv => if kv.1 = k then (k, v) else kv)) =
      (alookup k store).map (fun _ => v) := by
  induction store with
  | nil => rfl
  | cons a t ih =>
    obtain ⟨a1, a2⟩ := a
    by_cases h : k = a1
    · subst h
      have hf : (fun kv => if kv.1 = k then ((k : String), v) else kv)
          ((k : String), a2) = (k, v) := by simp
      simp only [List.map_cons, hf]
      simp [alookup]
    · simp only [List.map_cons]
      rw [if_neg (fun hh => h hh.symm)]
      simp [alookup, h, ih]

/-- `storeSet` stores exactly the given record under the given key. -/
theorem alookup_storeSet_self (store : PrefStore) (k : String) (v : PrefMap) :
    alookup k (storeSet store k v) = some v := by
  unfold storeSet
  by_cases h : (alookup k store).isSome
  · rw [if_pos h, alookup_map_set]
    cases ho : alookup k store with
    | none => rw [ho] at h; simp at h
    | some w => simp
  · rw [if_neg h, alookup_append]
    have ho : alookup k store = none := by
      cases ho : alookup k store with
      | none => rfl
      | some w => rw [ho] at h; simp at h
    rw [ho]
    simp [alookup]

/-- Replacing the record at key `k` does not disturb other keys. -/
theorem alookup_map_set_other (store : PrefStore) (k : String) (v : PrefMap)
    (k' : String) (hne : k' ≠ k) :
    alookup k' (store.map (fun kv => if kv.1 = k then (k, v) else kv)) =
      alookup k' store := by
  induction store with
  | nil => rfl
  | cons a t ih =>
    obtain ⟨a1, a2⟩ := a
    by_cases ha : a1 = k
    · subst ha
      simp only [List.map_cons, if_pos rfl]
      simp [alookup, hne, ih]
    · simp only [List.map_cons, if_neg ha]
      by_cases hk : k' = a1
      · subst hk; simp [alookup]
      · simp [alookup, hk, ih]

/-- `storeSet` leaves every other key unchanged. -/
theorem alookup_storeSet_other (store : PrefStore) (k : String) (v : PrefMap)
    (k' : String) (hne : k' ≠ k) :
    alookup k' (storeSet store k v) = alookup k' store := by
  unfold storeSet
  by_cases h : (alookup k store).isSome
  · rw [if_pos h, alookup_map_set_other store k v k' hne]
  · rw [if_neg h, alookup_append]
    cases hc : alookup k' store with
    | some w => rfl
    | none => simp [alookup, hne]

/-- Claim C9: saving preferences merges rather than replaces — for a
truthy user id the call returns `True`, stores the union of the old
record and the new map (new keys overwrite, old keys are never
deleted) and touches no other user; for a falsy (`None` or empty) user
id it returns `False`, the store is unchanged, and the
`POST /api/preferences` route answers 400. -/
theorem claim_C9_save_preferences_merges :
    (∀ (store : PrefStore) (u : String) (prefs : PrefMap), u ≠ "" →
        (save_user_preferences store (some u) prefs).1 = true ∧
        alookup u (save_user_preferences store (some u) prefs).2 =
          some (dictMerge ((alookup u store).getD []) prefs) ∧
        (∀ k, alookup k (dictMerge ((alookup u store).getD []) prefs) =
            match alookup k prefs with
            | some v => some v
            | none => alookup k ((alookup u store).getD [])) ∧
        (∀ u', u' ≠ u →
            alookup u' (save_user_preferences store (some u) prefs).2 =
              alookup u' store)) ∧
    (∀ (store : PrefStore) (user_id : Option String) (prefs : PrefMap),
        pyTruthy user_id = false →
        save_user_preferences store user_id prefs = (false, store)) ∧
    (∀ (md5hex12 : String → String) (store : PrefStore) (data : PrefRequest),
        (data.user_id = none ∨ data.user_id = some "") →
        data.fingerprint = "" →
        save_prefs md5hex12 store data = (400, store)) := by
  refine ⟨?_, ?_, ?_⟩
  · intro store u prefs hu
    have hsave : save_user_preferences store (some u) prefs =
        (true, storeSet store u (dictMerge ((alookup u store).getD []) prefs)) := by
      simp [save_user_preferences, hu]
    refine ⟨by rw [hsave], ?_, ?_, ?_⟩
    · rw [hsave]
      exact alookup_storeSet_self store u _
    · intro k
      exact dictMerge_lookup ((alookup u store).getD []) prefs k
    · intro u' hne
      rw [hsave]
      exact alookup_storeSet_other store u _ u' hne
  · intro store user_id prefs h
    cases user_id with
    | none => rfl
    | some s =>
      have hs : s = "" := by
        by_contra hc
        simp [pyTruthy, hc] at h
      subst hs
      rfl
  · intro md5hex12 store data huid hfp
    unfold save_prefs get_user_id
    rw [hfp]
    rcases huid with h | h <;> rw [h] <;> rfl

/-- Witness for C9: a concrete merge (`budget` kept, `food_pref` added)
and a concrete falsy save, both obtained from the claim theorem. -/
theorem claim_C9_witness :
    (save_user_preferences [("u1", [("budget", "mid")])] (some ("u1"))
        [("food_pref", "veg")]).1 = true ∧
    alookup ("u1") (save_user_preferences [("u1", [("budget", "mid")])]
        (some ("u1")) [("food_pref", "veg")]).2 =
      some (dictMerge [("budget", "mid")] [("food_pref", "veg")]) ∧
    save_user_preferences [("u1", [("budget", "mid")])] none [("x", "y")] =
      (false, [("u1", [("budget", "mid")])]) := by
  have h1 := claim_C9_save_preferences_merges.1 [("u1", [("budget", "mid")])]
    ("u1") [("food_pref", "veg")] (by decide)
  exact ⟨h1.1, h1.2.1,
    claim_C9_save_preferences_merges.2.1 [("u1", [("budget", "mid")])] none
      [("x", "y")] rfl⟩

/-- Counterexample to C2 as stated: for the reply
`garbage {"a":1} trailing junk` the claim demands the embedded object
`{"a":1}` via a first-`{`-to-last-`}` bracket scan, but the assist
pipeline attempts only one direct parse and substitutes the fixed
fallback payload — no bracket-scan recovery exists in the code. -/
theorem claim_C2_counterexample :
    assist_parse ("Gurugram") ("garbage \x7b\"a\":1\x7d trailing junk") =
      assistFallback ("Gurugram") ∧
    assistFallback ("Gurugram") ≠ Json.jobj [("a", Json.jnum 1)] := by
  constructor
  · rfl
  · intro h
    simp [assistFallback] at h

/-- Claim C2 (amended): the assist pipeline tries exactly one direct
JSON parse of the trimmed reply and otherwise returns the fixed
fallback payload (never an error); a reply that is itself a JSON object
parses directly; fence stripping exists only in `wizard_movies`, where
the content between the first pair of ``` fences (minus a leading
`json` tag) is parsed. -/
theorem claim_C2_direct_parse_or_fallback :
    (∀ city raw : String,
        (∃ v, json_loads (trimStr raw) = some v ∧ assist_parse city raw = v) ∨
        (json_loads (trimStr raw) = none ∧
          assist_parse city raw = assistFallback city)) ∧
    (∀ city : String,
        assist_parse city ("\x7b\"a\":1\x7d") = Json.jobj [("a", Json.jnum 1)]) ∧
    wizard_parse ("```json\n\x7b\"a\":1\x7d\n```") =
      some (Json.jobj [("a", Json.jnum 1)]) := by
  refine ⟨?_, fun _ => rfl, rfl⟩
  intro city raw
  cases h : json_loads (trimStr raw) with
  | some v =>
    exact Or.inl ⟨v, rfl, by unfold assist_parse; rw [h]⟩
  | none =>
    exact Or.inr ⟨rfl, by unfold assist_parse; rw [h]⟩

end TravelBuddy
